import Mathlib

/-!
Verification of the aggregation engine and validation logic of the
UCSBPaCE zendesk JSON checker (`src/main.py`).

The embedding models:
* `analyze_data` (main.py lines 50-147): the Aggregator and Field Extractor;
* the `created_at` timestamp parsing (`datetime.strptime` against the two
  fixed formats of lines 79 and 83);
* `collate_and_analyze_json_files` (main.py lines 255-325): the Collator's
  file filtering, merge/idempotency decision, and the two Validator checks.

Python dicts (`defaultdict(int)`) are modelled as insertion-ordered
association lists `List (K × Nat)`; Python sets as duplicate-free lists;
JSON string-or-null values as `Option String`; Python truthiness of such a
value (`if program_area:`) as "present and non-empty".  File-system state
(the persisted merged file) is passed explicitly, and the observable
behaviour of one run is a `RunTrace` record.
-/

/-- A `{id, value}` custom-field pair on a ticket.  `field.get('id')` and
`field.get('value')` may both be absent (`None`), hence the `Option`s. -/
structure CustomField where
  id : Option Nat
  value : Option String
deriving DecidableEq, Repr

/-- A ticket record, restricted to the attributes the core consumes.
An absent `tags` key and an empty list are indistinguishable in
`entry.get('tags', [])`, so `tags` is a plain list. -/
structure Ticket where
  created_at : Option String
  tags : List String
  custom_fields : List CustomField
deriving DecidableEq, Repr

/-- The four category names in `FIELD_ID_TO_NAME` (main.py lines 68-73). -/
inductive Cat where
  | channel
  | type_of_inquiry
  | program_area
  | segment
deriving DecidableEq, Repr

/-- The fixed id-to-category lookup table `FIELD_ID_TO_NAME`. -/
def fieldIdToName (i : Nat) : Option Cat :=
  if i = 38954747 then some .channel
  else if i = 38829288 then some .type_of_inquiry
  else if i = 38830788 then some .program_area
  else if i = 1500001654502 then some .segment
  else none

/-- `FIELD_ID_TO_NAME.get(field.get('id'))`: an absent id resolves to no
category, like an unmapped one. -/
def fieldCat (f : CustomField) : Option Cat :=
  f.id.bind fieldIdToName

/-- Python truthiness of a string-or-null value: `None` and `""` are falsy. -/
def truthy : Option String → Bool
  | none => false
  | some s => !s.isEmpty

/-- `m[k] += 1` on a `defaultdict(int)`: increment the first binding of `k`,
or append `(k, 1)` (dict insertion order). -/
def bump {α : Type} [DecidableEq α] (m : List (α × Nat)) (k : α) : List (α × Nat) :=
  match m with
  | [] => [(k, 1)]
  | (a, n) :: rest => if a = k then (a, n + 1) :: rest else (a, n) :: bump rest k

/-- Dict lookup with default 0 (what the report totals observe). -/
def lookupD {α : Type} [DecidableEq α] (m : List (α × Nat)) (k : α) : Nat :=
  match m with
  | [] => 0
  | (a, n) :: rest => if a = k then n else lookupD rest k

/-- `sum(d.values())`. -/
def sumValues {α : Type} (m : List (α × Nat)) : Nat :=
  (m.map Prod.snd).sum

/-- `s.add(x)` on a Python set, modelled as a duplicate-free list. -/
def addUnique {α : Type} [DecidableEq α] (s : List α) (x : α) : List α :=
  if x ∈ s then s else s ++ [x]

/-- The Aggregation Result: the dictionary `analysis_stats` returned by
`analyze_data` (main.py lines 131-145). -/
structure Stats where
  total_tickets : Nat
  created_at_year_count : List (Nat × Nat)
  tags_count : List (String × Nat)
  program_area_count : List (String × Nat)
  segment_count : List (String × Nat)
  channel_count : List (String × Nat)
  type_of_inquiry_count : List (String × Nat)
  spam_ticket_count : Nat
  unique_tags : List String
  unique_program_areas : List String
  unique_segments : List String
  unique_channels : List String
  unique_types_of_inquiry : List String
deriving DecidableEq, Repr

/-- The empty accumulators of main.py lines 54-65. -/
def initStats : Stats :=
  { total_tickets := 0
    created_at_year_count := []
    tags_count := []
    program_area_count := []
    segment_count := []
    channel_count := []
    type_of_inquiry_count := []
    spam_ticket_count := 0
    unique_tags := []
    unique_program_areas := []
    unique_segments := []
    unique_channels := []
    unique_types_of_inquiry := [] }

/-! ### Timestamp parsing

`datetime.strptime(s, "%Y-%m-%dT%H:%M:%S.%fZ")` and
`datetime.strptime(s, "%Y-%m-%dT%H:%M:%S.%f%z")` (main.py lines 79 and 83),
modelled on `List Char`.  CPython compiles each directive to a regex
fragment — `%Y` is 1-4 digits, `%m`/`%d`/`%H`/`%M`/`%S` are 1-2 digits
within their calendar range, `%f` is 1-6 digits, `%z` is `Z` or
`±HH[:]MM[[:]SS[.ffffff]]` — and then `datetime(...)` validates the
calendar (year ≥ 1, day within the month, time components in range,
offset magnitude below 24 hours).  Since every directive here is followed
by a non-digit literal, greedy digit-taking coincides with the regex
semantics.  Literal matching is modelled case-sensitively (CPython
compiles the pattern with IGNORECASE; no claim depends on the case of the
literals `T`/`Z`).  Only the year is consumed downstream, so the parsers
return the year. -/

/-- Take greedily up to `max` leading digits. -/
def takeDigits (max : Nat) (cs : List Char) : List Char × List Char :=
  match max, cs with
  | 0, cs => ([], cs)
  | _ + 1, [] => ([], [])
  | m + 1, c :: rest =>
    if c.isDigit then
      let (d, r) := takeDigits m rest
      (c :: d, r)
    else ([], c :: rest)

/-- Numeric value of a digit string. -/
def digitsVal (cs : List Char) : Nat :=
  cs.foldl (fun n c => n * 10 + (c.toNat - 48)) 0

/-- Match between `low` and `max` digits and return their value. -/
def parseNum (low max : Nat) (cs : List Char) : Option (Nat × List Char) :=
  let (d, r) := takeDigits max cs
  if d.length < low then none else some (digitsVal d, r)

/-- Match one literal character. -/
def expectChar (c : Char) (cs : List Char) : Option (List Char) :=
  match cs with
  | [] => none
  | x :: rest => if x = c then some rest else none

def isLeap (y : Nat) : Bool :=
  y % 4 = 0 && (y % 100 ≠ 0 || y % 400 = 0)

def daysInMonth (y m : Nat) : Nat :=
  if m = 2 then (if isLeap y then 29 else 28)
  else if m = 4 || m = 6 || m = 9 || m = 11 then 30
  else 31

/-- The part `%Y-%m-%dT%H:%M:%S.%f` common to both formats: on success,
the year and the unconsumed input. -/
def parseStampCore (cs : List Char) : Option (Nat × List Char) := do
  let (y, r) ← parseNum 1 4 cs
  let r ← expectChar '-' r
  let (mo, r) ← parseNum 1 2 r
  let r ← expectChar '-' r
  let (d, r) ← parseNum 1 2 r
  let r ← expectChar 'T' r
  let (h, r) ← parseNum 1 2 r
  let r ← expectChar ':' r
  let (mi, r) ← parseNum 1 2 r
  let r ← expectChar ':' r
  let (sec, r) ← parseNum 1 2 r
  let r ← expectChar '.' r
  let (_frac, r) ← parseNum 1 6 r
  if 1 ≤ y && 1 ≤ mo && mo ≤ 12 && 1 ≤ d && d ≤ daysInMonth y mo
      && h ≤ 23 && mi ≤ 59 && sec ≤ 59 then
    some (y, r)
  else none

/-- The optional `[[:]SS[.ffffff]]` tail of a `%z` offset; returns the
remainder, consuming nothing when the group does not match. -/
def parseOffsetSeconds (cs : List Char) : List Char :=
  let r1 := match cs with
    | ':' :: rest => rest
    | _ => cs
  match parseNum 2 2 r1 with
  | none => cs
  | some (ss, r2) =>
    if ss ≤ 59 then
      match r2 with
      | '.' :: r3 =>
        match parseNum 1 6 r3 with
        | some (_, r4) => r4
        | none => r2
      | _ => r2
    else cs

/-- A `%z` offset: `Z`, or a sign, two hour digits, an optional colon, two
minute digits, and an optional seconds group; the resulting offset must be
below 24 hours in magnitude. -/
def parseOffset (cs : List Char) : Option (List Char) :=
  match cs with
  | 'Z' :: rest => some rest
  | c :: rest =>
    if c = '+' || c = '-' then do
      let (hh, r) ← parseNum 2 2 rest
      let r := match r with
        | ':' :: r2 => r2
        | _ => r
      let (mm, r) ← parseNum 2 2 r
      if hh ≤ 23 && mm ≤ 59 then some (parseOffsetSeconds r) else none
    else none
  | [] => none

/-- `datetime.strptime(s, "%Y-%m-%dT%H:%M:%S.%fZ").year` (format A):
`none` models the `ValueError` branch. -/
def strptimeA (s : String) : Option Nat := do
  let (y, r) ← parseStampCore s.toList
  let r ← expectChar 'Z' r
  if r.isEmpty then some y else none

/-- `datetime.strptime(s, "%Y-%m-%dT%H:%M:%S.%f%z").year` (format B). -/
def strptimeB (s : String) : Option Nat := do
  let (y, r) ← parseStampCore s.toList
  let r ← parseOffset r
  if r.isEmpty then some y else none

/-- The try/except chain of main.py lines 78-86: format A first and, on its
`ValueError`, format B; `none` when both fail (the warning branch). -/
def parseCreatedYear (s : String) : Option Nat :=
  match strptimeA s with
  | some y => some y
  | none => strptimeB s

/-! ### The per-entry aggregation steps of `analyze_data` -/

/-- Lines 77-86: bump the year bucket when `created_at` is present and one
of the two formats parses it; otherwise leave the stats unchanged (the
non-fatal warning branch). -/
def analyzeDate (st : Stats) (created : Option String) : Stats :=
  match created with
  | none => st
  | some s =>
    match parseCreatedYear s with
    | some y => { st with created_at_year_count := bump st.created_at_year_count y }
    | none => st

/-- The body of the tag loop (lines 91-93). -/
def tagStep (a : Stats) (t : String) : Stats :=
  { a with
    tags_count := bump a.tags_count t
    unique_tags := addUnique a.unique_tags t }

/-- Lines 89-93: `tags = entry.get('tags', [])`, then the counting loop
guarded by `if tags:`. -/
def analyzeTags (st : Stats) (tags : List String) : Stats :=
  if tags.isEmpty then st else tags.foldl tagStep st

/-- The loop state of the custom-fields loop (lines 97-100): the four
per-category working values plus the accumulated stats. -/
structure FieldLoop where
  stats : Stats
  program_area : Option String
  segment : Option String
  channel : Option String
  type_of_inquiry : Option String
deriving DecidableEq, Repr

/-- The working value for one category. -/
def FieldLoop.getCat (s : FieldLoop) : Cat → Option String
  | .program_area => s.program_area
  | .segment => s.segment
  | .channel => s.channel
  | .type_of_inquiry => s.type_of_inquiry

/-- The initial loop state of lines 97-100 over accumulated stats `st`:
all four working values start as `None`. -/
def initLoop (st : Stats) : FieldLoop :=
  { stats := st, program_area := none, segment := none, channel := none,
    type_of_inquiry := none }

/-- The body of the custom-fields loop (lines 102-125): resolve the id,
overwrite the matching working value, and — when the new value is truthy —
bump that category's counter and distinct-value set. -/
def fieldStep (s : FieldLoop) (f : CustomField) : FieldLoop :=
  match fieldCat f with
  | some .program_area =>
    match f.value with
    | some v =>
      if v.isEmpty then { s with program_area := some v }
      else
        { s with
          program_area := some v
          stats := { s.stats with
            program_area_count := bump s.stats.program_area_count v
            unique_program_areas := addUnique s.stats.unique_program_areas v } }
    | none => { s with program_area := none }
  | some .segment =>
    match f.value with
    | some v =>
      if v.isEmpty then { s with segment := some v }
      else
        { s with
          segment := some v
          stats := { s.stats with
            segment_count := bump s.stats.segment_count v
            unique_segments := addUnique s.stats.unique_segments v } }
    | none => { s with segment := none }
  | some .channel =>
    match f.value with
    | some v =>
      if v.isEmpty then { s with channel := some v }
      else
        { s with
          channel := some v
          stats := { s.stats with
            channel_count := bump s.stats.channel_count v
            unique_channels := addUnique s.stats.unique_channels v } }
    | none => { s with channel := none }
  | some .type_of_inquiry =>
    match f.value with
    | some v =>
      if v.isEmpty then { s with type_of_inquiry := some v }
      else
        { s with
          type_of_inquiry := some v
          stats := { s.stats with
            type_of_inquiry_count := bump s.stats.type_of_inquiry_count v
            unique_types_of_inquiry := addUnique s.stats.unique_types_of_inquiry v } }
    | none => { s with type_of_inquiry := none }
  | none => s

/-- Lines 96-128: run the custom-fields loop from empty working values,
then `if not program_area: spam_ticket_count += 1`. -/
def analyzeFields (st : Stats) (fields : List CustomField) : Stats :=
  let r := fields.foldl fieldStep (initLoop st)
  if truthy r.program_area then r.stats
  else { r.stats with spam_ticket_count := r.stats.spam_ticket_count + 1 }

/-- One iteration of the entry loop (lines 75-128). -/
def analyzeEntry (st : Stats) (e : Ticket) : Stats :=
  analyzeFields (analyzeTags (analyzeDate st e.created_at) e.tags) e.custom_fields

/-- `analyze_data` (lines 50-147): fold the entry loop over the sequence and
record `total_tickets = len(data_entries)`. -/
def analyze_data (entries : List Ticket) : Stats :=
  { entries.foldl analyzeEntry initStats with total_tickets := entries.length }

/-! ### The Collator and Validator (`collate_and_analyze_json_files`, lines 255-325)

One input file is its name together with the ticket records `process_file`
yields from it; the persisted merged file is an `Option (List Ticket)`
(`none` when `output_file` does not exist).  The observable behaviour of
one run is collected in a `RunTrace`. -/

/-- One file of the input folder: its name and the records loaded from it. -/
structure InputFile where
  name : String
  entries : List Ticket
deriving DecidableEq, Repr

/-- `f.endswith('.json')` (line 261), as a character-list suffix test. -/
def endsInJson (name : String) : Bool :=
  List.isSuffixOf ".json".toList name.toList

/-- The three fatal conditions of the run: the early return of lines
263-265 and the two distinct `ValueError`s of lines 313 and 321. -/
inductive RunError where
  | noInputFiles
  | validationMismatch
  | allTicketsSpam
deriving DecidableEq, Repr

/-- Observable outcome of one `collate_and_analyze_json_files` run. -/
structure RunTrace where
  perFileStats : List (String × Stats)
  mergedFile : Option (List Ticket)
  writeSkipped : Option Bool
  combinedStats : Option Stats
  error : Option RunError
deriving DecidableEq, Repr

/-- `all_data`: the concatenation, in listing order, of the records of the
files whose names end in `.json` (lines 260-271). -/
def unionData (files : List InputFile) : List Ticket :=
  (files.filter fun f => endsInJson f.name).foldl (fun acc f => acc ++ f.entries) []

/-- The two Validator checks (lines 304-323): first the totals cross-check,
then the all-spam check; `none` when both pass. -/
def validateCombined (c : Stats) : Option RunError :=
  if c.total_tickets ≠ sumValues c.program_area_count + c.spam_ticket_count then
    some .validationMismatch
  else if c.total_tickets = c.spam_ticket_count then
    some .allTicketsSpam
  else none

/-- `collate_and_analyze_json_files` (lines 255-325) over explicit state:
filter the folder listing to `.json` names; abort (early return) when none
remain; otherwise analyze each file, build the union, decide whether to
keep the persisted file (equal record count) or (re)write it, analyze the
union, and run the two validation checks. -/
def collateRun (files : List InputFile) (existing : Option (List Ticket)) : RunTrace :=
  let splitFiles := files.filter fun f => endsInJson f.name
  if splitFiles.isEmpty then
    { perFileStats := []
      mergedFile := existing
      writeSkipped := none
      combinedStats := none
      error := some .noInputFiles }
  else
    let allData := unionData files
    let perFile := splitFiles.map fun f => (f.name, analyze_data f.entries)
    let decision : List Ticket × Bool :=
      match existing with
      | some e => if e.length = allData.length then (e, true) else (allData, false)
      | none => (allData, false)
    let c := analyze_data allData
    { perFileStats := perFile
      mergedFile := some decision.1
      writeSkipped := some decision.2
      combinedStats := some c
      error := validateCombined c }

/-! ### Characterizations and concrete inputs used in the theorems -/

/-- The last custom field of `fields` that maps to category `c`, if any:
the field whose value the overwrite loop leaves in `c`'s working variable. -/
def lastAssigned : List CustomField → Cat → Option CustomField
  | [], _ => none
  | f :: rest, c =>
    match lastAssigned rest c with
    | some g => some g
    | none => if fieldCat f = some c then some f else none

/-- A ticket whose two custom fields both map to `program_area` with the
same non-empty value. -/
def dupTicket : Ticket :=
  { created_at := none, tags := [],
    custom_fields := [⟨some 38830788, some "a"⟩, ⟨some 38830788, some "a"⟩] }

/-- A ticket with a non-empty `program_area` field shadowed by a later
empty one. -/
def shadowTicket : Ticket :=
  { created_at := none, tags := [],
    custom_fields := [⟨some 38830788, some "a"⟩, ⟨some 38830788, some ""⟩] }

/-- A ticket with no custom fields at all (no resolvable `program_area`). -/
def spamTicket : Ticket :=
  { created_at := none, tags := [], custom_fields := [] }

/-- A ticket with one non-empty `program_area` field. -/
def paTicket : Ticket :=
  { created_at := none, tags := [],
    custom_fields := [⟨some 38830788, some "x"⟩] }

/-- A one-file input folder holding `paTicket`. -/
def demoFiles : List InputFile :=
  [{ name := "a.json", entries := [paTicket] }]

/-- A one-file input folder holding only `spamTicket`. -/
def demoSpamFiles : List InputFile :=
  [{ name := "a.json", entries := [spamTicket] }]

/-- A one-file input folder whose file is empty. -/
def demoEmptyFiles : List InputFile :=
  [{ name := "a.json", entries := [] }]

/-- A folder with only a non-`.json` file. -/
def demoTxtFiles : List InputFile :=
  [{ name := "notes.txt", entries := [paTicket] }]

/-! ### Helper lemmas -/

theorem lookupD_bump {α : Type} [DecidableEq α] (m : List (α × Nat)) (k j : α) :
    lookupD (bump m k) j = lookupD m j + (if j = k then 1 else 0) := by
  induction m with
  | nil =>
    simp only [bump, lookupD]
    by_cases h : k = j
    · subst h
      simp
    · rw [if_neg h, if_neg (fun hjk => h hjk.symm)]
  | cons p rest ih =>
    obtain ⟨a, n⟩ := p
    simp only [bump]
    by_cases hak : a = k
    · rw [if_pos hak]
      simp only [lookupD]
      by_cases haj : a = j
      · rw [if_pos haj, if_pos haj, if_pos (haj.symm.trans hak)]
      · rw [if_neg haj, if_neg haj,
          if_neg (fun hjk : j = k => haj (hak.trans hjk.symm))]
        omega
    · rw [if_neg hak]
      simp only [lookupD]
      by_cases haj : a = j
      · rw [if_pos haj, if_pos haj, if_neg (fun hjk => hak (haj.trans hjk))]
        omega
      · rw [if_neg haj, if_neg haj]
        exact ih

theorem getCat_fieldStep (s : FieldLoop) (f : CustomField) (c : Cat) :
    (fieldStep s f).getCat c = if fieldCat f = some c then f.value else s.getCat c := by
  rcases hf : fieldCat f with _ | cf
  · simp [fieldStep, hf]
  · rcases hv : f.value with _ | v
    · cases cf <;> cases c <;> simp [fieldStep, hf, hv, FieldLoop.getCat]
    · by_cases hemp : v.isEmpty <;> cases cf <;> cases c <;>
        simp [fieldStep, hf, hv, hemp, FieldLoop.getCat]

theorem spam_fieldStep (s : FieldLoop) (f : CustomField) :
    (fieldStep s f).stats.spam_ticket_count = s.stats.spam_ticket_count := by
  rcases hf : fieldCat f with _ | cf
  · simp [fieldStep, hf]
  · rcases hv : f.value with _ | v
    · cases cf <;> simp [fieldStep, hf, hv]
    · by_cases hemp : v.isEmpty <;> cases cf <;> simp [fieldStep, hf, hv, hemp]

theorem spam_foldl_fieldStep (fields : List CustomField) (s : FieldLoop) :
    (fields.foldl fieldStep s).stats.spam_ticket_count = s.stats.spam_ticket_count := by
  induction fields generalizing s with
  | nil => rfl
  | cons f rest ih => rw [List.foldl_cons, ih, spam_fieldStep]

theorem getCat_foldl_fieldStep (fields : List CustomField) (s : FieldLoop) (c : Cat) :
    (fields.foldl fieldStep s).getCat c
      = match lastAssigned fields c with
        | some g => g.value
        | none => s.getCat c := by
  induction fields generalizing s with
  | nil => rfl
  | cons f rest ih =>
    rw [List.foldl_cons, ih]
    rcases h : lastAssigned rest c with _ | g
    · simp only [lastAssigned, h]
      rw [getCat_fieldStep]
      by_cases hc : fieldCat f = some c
      · simp [hc]
      · simp [hc]
    · simp [lastAssigned, h]

theorem lookupD_foldl_tagStep (tags : List String) (st : Stats) (t : String) :
    lookupD (tags.foldl tagStep st).tags_count t
      = lookupD st.tags_count t + tags.count t := by
  induction tags generalizing st with
  | nil => simp
  | cons x ts ih =>
    rw [List.foldl_cons, ih]
    simp only [tagStep]
    rw [lookupD_bump, List.count_cons]
    by_cases h : t = x
    · subst h
      simp
      omega
    · have hx : ¬ x = t := fun hh => h hh.symm
      simp [h, hx]

theorem filter_same {α : Type} (p : α → Bool) (l : List α) :
    (l.filter p).filter p = l.filter p := by
  induction l with
  | nil => rfl
  | cons a t ih => by_cases h : p a <;> simp [List.filter_cons, h, ih]

theorem collateRun_of_nonempty (files : List InputFile)
    (existing : Option (List Ticket))
    (h : (files.filter fun f => endsInJson f.name) ≠ []) :
    collateRun files existing =
      { perFileStats := (files.filter fun f => endsInJson f.name).map
          fun f => (f.name, analyze_data f.entries)
        mergedFile := some (match existing with
          | some e => if e.length = (unionData files).length then e else unionData files
          | none => unionData files)
        writeSkipped := some (match existing with
          | some e => decide (e.length = (unionData files).length)
          | none => false)
        combinedStats := some (analyze_data (unionData files))
        error := validateCombined (analyze_data (unionData files)) } := by
  have hne : (files.filter fun f => endsInJson f.name).isEmpty = false := by
    rcases hl : files.filter fun f => endsInJson f.name with _ | ⟨a, l⟩
    · exact absurd hl h
    · rw [hl]
      rfl
  rcases existing with _ | e
  · simp [collateRun, hne]
  · by_cases hlen : e.length = (unionData files).length <;>
      simp [collateRun, hne, hlen]

theorem analyzeFields_spam (st : Stats) (fields : List CustomField) :
    (analyzeFields st fields).spam_ticket_count
      = st.spam_ticket_count
        + (if truthy ((fields.foldl fieldStep (initLoop st)).program_area)
           then 0 else 1) := by
  unfold analyzeFields
  by_cases htr : truthy ((fields.foldl fieldStep (initLoop st)).program_area)
  · simp only [htr, if_true]
    have h1 := spam_foldl_fieldStep fields (initLoop st)
    have h2 : (initLoop st).stats.spam_ticket_count = st.spam_ticket_count := rfl
    omega
  · simp only [htr, if_false, Bool.false_eq_true]
    have := spam_foldl_fieldStep fields (initLoop st)
    simp only [this]
    rfl

/-! ### The claims -/

/-- C1: the spec's invariant `total_tickets = sum(program_area_count.values())
+ spam_ticket_count` does NOT hold for every ticket sequence: a single ticket
carrying two custom fields that both map to `program_area` with non-empty
values contributes 2 to the program-area counters and 0 to the spam counter,
so the code violates the very invariant its own Validator asserts. -/
theorem c1_invariant_fails_on_duplicate_program_area_fields :
    ¬ ((analyze_data [dupTicket]).total_tickets
        = sumValues (analyze_data [dupTicket]).program_area_count
          + (analyze_data [dupTicket]).spam_ticket_count) := by
  decide

/-- C2: the category counters are NOT updated once per ticket for the
resolved value — they are bumped once per non-empty occurrence inside the
custom-fields loop.  `dupTicket` (two `program_area` fields, both value
`"a"`) drives the counter for `"a"` to 2 from one ticket; `shadowTicket`
(value `"a"` shadowed by a later `""`) resolves to the empty value, yet
`"a"` entered both the frequency table and the distinct-value set while the
ticket was also counted as spam. -/
theorem c2_counters_bumped_per_occurrence :
    (analyze_data [dupTicket]).program_area_count = [("a", 2)]
    ∧ (analyze_data [shadowTicket]).program_area_count = [("a", 1)]
    ∧ (analyze_data [shadowTicket]).unique_program_areas = ["a"]
    ∧ (analyze_data [shadowTicket]).spam_ticket_count = 1 := by
  decide

/-- C3: for each of the four categories the value the custom-fields loop
resolves is the value of the last custom field mapping to that category
(last occurrence wins), and the spam counter is incremented exactly when
that resolved `program_area` value is absent or empty — so per ticket the
spam contribution and a truthy `program_area` classification are mutually
exclusive and exhaustive. -/
theorem c3_last_occurrence_wins_and_spam_iff_unresolved
    (st : Stats) (fields : List CustomField) :
    (∀ c : Cat,
      (fields.foldl fieldStep (initLoop st)).getCat c
        = (lastAssigned fields c).bind CustomField.value)
    ∧ (analyzeFields st fields).spam_ticket_count
        = st.spam_ticket_count
          + (if truthy ((lastAssigned fields Cat.program_area).bind CustomField.value)
             then 0 else 1) := by
  have hres : ∀ c : Cat,
      (fields.foldl fieldStep (initLoop st)).getCat c
        = (lastAssigned fields c).bind CustomField.value := by
    intro c
    rw [getCat_foldl_fieldStep]
    rcases h : lastAssigned fields c with _ | g
    · cases c <;> rfl
    · rfl
  refine ⟨hres, ?_⟩
  have hpa : (fields.foldl fieldStep (initLoop st)).program_area
      = (lastAssigned fields Cat.program_area).bind CustomField.value :=
    hres Cat.program_area
  rw [analyzeFields_spam, hpa]

/-- C4: each tag occurrence increments that tag's counter once (duplicates
within one ticket are not deduplicated): over any accumulated stats, the
counter of `t` grows by exactly the number of occurrences of `t` in the
ticket's tag list; an empty (or absent) tag list leaves the stats
untouched; and the ticket with tags `["a","a","b"]` yields counters
`a ↦ 2, b ↦ 1`. -/
theorem c4_tags_counted_per_occurrence (st : Stats) (tags : List String) (t : String) :
    lookupD (analyzeTags st tags).tags_count t
      = lookupD st.tags_count t + tags.count t
    ∧ analyzeTags st [] = st
    ∧ (analyze_data
        [{ created_at := none, tags := ["a", "a", "b"], custom_fields := [] }]).tags_count
        = [("a", 2), ("b", 1)] := by
  refine ⟨?_, rfl, by decide⟩
  cases tags with
  | nil => simp [analyzeTags]
  | cons x ts =>
    have hx : analyzeTags st (x :: ts) = (x :: ts).foldl tagStep st := by
      simp [analyzeTags]
    rw [hx, lookupD_foldl_tagStep]

/-- C5: `created_at` is parsed first against the literal-`Z` format and, on
its failure, against the numeric-offset format; `"2023-05-01T10:00:00.000Z"`
is attributed to year 2023; an absent or doubly-unparseable value
contributes to no year bucket; and aggregation is never aborted — the
result (with `total_tickets` equal to the input length) exists for every
input. -/
theorem c5_created_at_parsing :
    (∀ (s : String) (y : Nat), strptimeA s = some y → parseCreatedYear s = some y)
    ∧ (∀ s : String, strptimeA s = none → parseCreatedYear s = strptimeB s)
    ∧ parseCreatedYear "2023-05-01T10:00:00.000Z" = some 2023
    ∧ (∀ (st : Stats) (s : String), parseCreatedYear s = none →
        analyzeDate st (some s) = st)
    ∧ (∀ st : Stats, analyzeDate st none = st)
    ∧ (∀ entries : List Ticket, (analyze_data entries).total_tickets = entries.length) := by
  refine ⟨?_, ?_, by decide, ?_, fun st => rfl, fun entries => rfl⟩
  · intro s y h
    simp [parseCreatedYear, h]
  · intro s h
    simp [parseCreatedYear, h]
  · intro st s h
    simp [analyzeDate, h]

/-- Witness for C5 at the concrete inputs of the spec's example. -/
theorem c5_created_at_parsing_witness :
    parseCreatedYear "not-a-date" = strptimeB "not-a-date"
    ∧ analyzeDate initStats (some "not-a-date") = initStats :=
  ⟨c5_created_at_parsing.2.1 "not-a-date" (by decide),
   c5_created_at_parsing.2.2.2.1 initStats "not-a-date" (by decide)⟩

/-- C6: the merge decision is idempotent under the record-count check —
with input files present, a fresh run writes the union when no persisted
file exists, overwrites it when the counts differ, and leaves it unchanged
(write skipped) when the counts agree; hence whatever a first run leaves
persisted, a second run over the unchanged sources keeps it identical and
skips the write. -/
theorem c6_collation_idempotent (files : List InputFile)
    (existing : Option (List Ticket))
    (h : (files.filter fun f => endsInJson f.name) ≠ []) :
    ((collateRun files none).mergedFile = some (unionData files)
      ∧ (collateRun files none).writeSkipped = some false)
    ∧ (∀ e : List Ticket, e.length = (unionData files).length →
        (collateRun files (some e)).mergedFile = some e
        ∧ (collateRun files (some e)).writeSkipped = some true)
    ∧ (∀ e : List Ticket, e.length ≠ (unionData files).length →
        (collateRun files (some e)).mergedFile = some (unionData files)
        ∧ (collateRun files (some e)).writeSkipped = some false)
    ∧ (∀ m : List Ticket, (collateRun files existing).mergedFile = some m →
        (collateRun files (some m)).mergedFile = some m
        ∧ (collateRun files (some m)).writeSkipped = some true) := by
  refine ⟨?_, ?_, ?_, ?_⟩
  · rw [collateRun_of_nonempty files none h]
    exact ⟨rfl, rfl⟩
  · intro e he
    rw [collateRun_of_nonempty files (some e) h]
    simp [he]
  · intro e he
    rw [collateRun_of_nonempty files (some e) h]
    simp [he]
  · intro m hm
    rw [collateRun_of_nonempty files existing h] at hm
    have hmlen : m.length = (unionData files).length := by
      rcases existing with _ | e
      · simp only [Option.some.injEq] at hm
        rw [hm]
      · by_cases hlen : e.length = (unionData files).length
        · simp only [hlen, if_true, Option.some.injEq] at hm
          rw [hm] at hlen
          exact hlen
        · simp only [hlen, if_false, Option.some.injEq] at hm
          rw [hm]
    rw [collateRun_of_nonempty files (some m) h]
    simp [hmlen]

/-- Witness for C6: a one-file folder, first run from no persisted file,
second run from what the first run persisted. -/
theorem c6_collation_idempotent_witness :
    (collateRun demoFiles (some (unionData demoFiles))).mergedFile
      = some (unionData demoFiles)
    ∧ (collateRun demoFiles (some (unionData demoFiles))).writeSkipped = some true := by
  have h := c6_collation_idempotent demoFiles none (by decide)
  exact h.2.2.2 (unionData demoFiles) h.1.1

/-- C7: an empty input folder is fatal before anything else happens: the
run reports the no-input-files condition, analyzes nothing, leaves the
persisted merged file exactly as it was, and produces no report. -/
theorem c7_no_input_files_is_fatal (existing : Option (List Ticket)) :
    collateRun [] existing
      = { perFileStats := []
          mergedFile := existing
          writeSkipped := none
          combinedStats := none
          error := some RunError.noInputFiles } := rfl

theorem validateCombined_eq (c : Stats) :
    validateCombined c =
      if c.total_tickets = sumValues c.program_area_count + c.spam_ticket_count then
        (if c.total_tickets = c.spam_ticket_count then some RunError.allTicketsSpam
         else none)
      else some RunError.validationMismatch := by
  unfold validateCombined
  by_cases h1 : c.total_tickets = sumValues c.program_area_count + c.spam_ticket_count
  · rw [if_neg (not_not_intro h1), if_pos h1]
  · rw [if_pos h1, if_neg h1]

/-- C8: with input files present, whenever the union's Aggregation Result
has `total_tickets > 0` and `spam_ticket_count = total_tickets` the run
ends in one of the two named validation errors; the run reports success
(no error) exactly when both Validator checks pass; and the two checks
raise distinct named errors. -/
theorem c8_validator_checks (files : List InputFile)
    (existing : Option (List Ticket))
    (h : (files.filter fun f => endsInJson f.name) ≠ []) :
    (0 < (analyze_data (unionData files)).total_tickets →
      (analyze_data (unionData files)).spam_ticket_count
          = (analyze_data (unionData files)).total_tickets →
      ((collateRun files existing).error = some RunError.validationMismatch
        ∨ (collateRun files existing).error = some RunError.allTicketsSpam))
    ∧ ((collateRun files existing).error = none ↔
        ((analyze_data (unionData files)).total_tickets
            = sumValues (analyze_data (unionData files)).program_area_count
              + (analyze_data (unionData files)).spam_ticket_count
          ∧ (analyze_data (unionData files)).total_tickets
              ≠ (analyze_data (unionData files)).spam_ticket_count))
    ∧ RunError.validationMismatch ≠ RunError.allTicketsSpam := by
  rw [collateRun_of_nonempty files existing h]
  dsimp only
  rw [validateCombined_eq]
  refine ⟨?_, ?_, by decide⟩
  · intro _ hspam
    by_cases h1 : (analyze_data (unionData files)).total_tickets
        = sumValues (analyze_data (unionData files)).program_area_count
          + (analyze_data (unionData files)).spam_ticket_count
    · rw [if_pos h1, if_pos hspam.symm]
      exact Or.inr rfl
    · rw [if_neg h1]
      exact Or.inl rfl
  · constructor
    · intro hnone
      by_cases h1 : (analyze_data (unionData files)).total_tickets
          = sumValues (analyze_data (unionData files)).program_area_count
            + (analyze_data (unionData files)).spam_ticket_count
      · by_cases h2 : (analyze_data (unionData files)).total_tickets
            = (analyze_data (unionData files)).spam_ticket_count
        · rw [if_pos h1, if_pos h2] at hnone
          exact absurd hnone (by simp)
        · exact ⟨h1, h2⟩
      · rw [if_neg h1] at hnone
        exact absurd hnone (by simp)
    · rintro ⟨h1, h2⟩
      rw [if_pos h1, if_neg h2]

/-- Witness for C8: a one-file folder whose single ticket has no custom
fields, so the union is all spam and the run fails with a named validation
error. -/
theorem c8_validator_checks_witness :
    (collateRun demoSpamFiles none).error = some RunError.validationMismatch
    ∨ (collateRun demoSpamFiles none).error = some RunError.allTicketsSpam :=
  (c8_validator_checks demoSpamFiles none (by decide)).1 (by decide) (by decide)

/-- C9: when input files are present but the merged union holds zero
records, the union's stats are those of the empty sequence (total 0,
spam 0); the first Validator check passes (`0 = 0 + 0`) and the second
fires, so the run always aborts with the all-tickets-spam error. -/
theorem c9_empty_union_fails_all_spam (files : List InputFile)
    (existing : Option (List Ticket))
    (h : (files.filter fun f => endsInJson f.name) ≠ [])
    (hu : unionData files = []) :
    (collateRun files existing).error = some RunError.allTicketsSpam
    ∧ (collateRun files existing).combinedStats = some (analyze_data [])
    ∧ (analyze_data []).total_tickets
        = sumValues (analyze_data []).program_area_count
          + (analyze_data []).spam_ticket_count
    ∧ (analyze_data []).total_tickets = 0
    ∧ (analyze_data []).spam_ticket_count = 0 := by
  rw [collateRun_of_nonempty files existing h, hu]
  refine ⟨?_, rfl, by decide, by decide, by decide⟩
  show validateCombined (analyze_data []) = some RunError.allTicketsSpam
  decide

/-- Witness for C9: one `.json` file containing no records. -/
theorem c9_empty_union_fails_all_spam_witness :
    (collateRun demoEmptyFiles none).error = some RunError.allTicketsSpam :=
  (c9_empty_union_fails_all_spam demoEmptyFiles none (by decide) (by decide)).1

/-- C10: only files whose names end in `.json` take part in the run —
the run over any folder equals the run over its `.json`-filtered listing —
and a folder with no `.json` names behaves exactly like an empty folder:
the fatal no-input-files condition fires and nothing is aggregated. -/
theorem c10_only_json_files_loaded (files : List InputFile)
    (existing : Option (List Ticket)) :
    collateRun files existing
      = collateRun (files.filter fun f => endsInJson f.name) existing
    ∧ ((∀ f ∈ files, endsInJson f.name = false) →
        collateRun files existing = collateRun [] existing
        ∧ (collateRun files existing).error = some RunError.noInputFiles) := by
  have hsame : collateRun files existing
      = collateRun (files.filter fun f => endsInJson f.name) existing := by
    simp only [collateRun, unionData, filter_same]
  refine ⟨hsame, fun hnone => ?_⟩
  have hnil : (files.filter fun f => endsInJson f.name) = [] := by
    rw [List.filter_eq_nil_iff]
    intro a ha
    simp [hnone a ha]
  constructor
  · rw [hsame, hnil]
  · rw [hsame, hnil]
    rfl

/-- Witness for C10: a folder holding only `notes.txt`. -/
theorem c10_only_json_files_loaded_witness :
    collateRun demoTxtFiles none = collateRun [] none
    ∧ (collateRun demoTxtFiles none).error = some RunError.noInputFiles :=
  (c10_only_json_files_loaded demoTxtFiles none).2 (by decide)
